import Mathlib

/-!
Shallow embedding of the session/strategy core of `hono-simple-google-auth`
(src/types.ts, src/testmode.tsx, src/livemode.ts, src/index.tsx).

The store and the remote token verifier are external collaborators; a request
is modelled by the data the handlers actually read from it (the raw `Cookie`
header for the simulated strategy, the structured cookie value for the live
strategy, the parsed body for the test sign-in and callback handlers), and the
store by an oracle giving the outcome (value / absence / thrown exception) of
each `get` / `put` / `delete` it would perform during the request.  Handlers
return an `Except`: `.error ()` means an exception escaped the handler to the
host framework; `.ok` carries the response together with the list of store
calls the handler issued, so "put was never invoked" is the statement that the
trace is empty.
-/

namespace HonoSimpleGoogleAuth

/-- `ValidSessionData` from src/types.ts: `{signedIn: true, sessionId, name,
email, credential}` (the `signedIn: true` literal tag is carried by the
constructor choice in `SessionData`). -/
structure ValidSessionData where
  sessionId : String
  name : String
  email : String
  credential : String
  deriving Repr, DecidableEq

/-- `SessionData = ValidSessionData | InvalidSessionData` from src/types.ts;
`invalid` carries the optional `error` field of `InvalidSessionData`. -/
inductive SessionData where
  | valid (d : ValidSessionData)
  | invalid (error : Option String)
  deriving Repr, DecidableEq

/-- Outcome of one `sessionStore.get(id)` call: resolves with a record,
resolves with `undefined`, or rejects (throws). -/
inductive GetResult where
  | ok (r : Option ValidSessionData)
  | throws
  deriving Repr, DecidableEq

/-- Outcome of one `sessionStore.put(record)` call. -/
inductive PutResult where
  | ok
  | throws
  deriving Repr, DecidableEq

/-- Outcome of one `sessionStore.delete(id)` call. -/
inductive DeleteResult where
  | ok
  | throws
  deriving Repr, DecidableEq

/-- Behaviour of the host-supplied session store during one request
(src/types.ts `sessionStore`): `get`/`put` outcomes per argument, and the
optional `delete` capability (`delete?:` in the interface). -/
structure SessionStore where
  get : String → GetResult
  put : ValidSessionData → PutResult
  delete : Option (String → DeleteResult)

/-- JS truthiness of a `string | undefined` value: `undefined` and `""` are
falsy. -/
def jsTruthy : Option String → Bool
  | none => false
  | some s => s ≠ ""

/-- JS `a || b` for `a : string | undefined` with a string default `b`. -/
def jsOrString (a : Option String) (b : String) : String :=
  match a with
  | none => b
  | some s => if s = "" then b else s

/-- JS `a || b` for `a : number | undefined` with a numeric default (`0` is
falsy). -/
def jsOrNat (a : Option Nat) (b : Nat) : Nat :=
  match a with
  | none => b
  | some n => if n = 0 then b else n

/-- JS `d ? { domain: d } : {}`: an empty-string domain is falsy and is
dropped like an absent one. -/
def jsNonEmpty : Option String → Option String
  | none => none
  | some s => if s = "" then none else some s

/-- Splitting a character list at every occurrence of `sep`, keeping empty
segments — the semantics of JS `String.prototype.split` with a one-character
separator, at the character-list level. -/
def splitOnCharList (sep : Char) : List Char → List (List Char)
  | [] => [[]]
  | c :: cs =>
    match splitOnCharList sep cs with
    | [] => [[c]]
    | g :: gs => if c = sep then [] :: g :: gs else (c :: g) :: gs

/-- JS `s.split(sep)` for a one-character separator. -/
def jsSplit (s : String) (sep : Char) : List String :=
  (splitOnCharList sep s.data).map String.mk

/-- Dropping whitespace at both ends of a character list. -/
def trimList (l : List Char) : List Char :=
  ((l.dropWhile Char.isWhitespace).reverse.dropWhile Char.isWhitespace).reverse

/-- JS `s.trim()`. -/
def jsTrim (s : String) : String :=
  String.mk (trimList s.data)

/-- JS `s.startsWith(p)`. -/
def jsStartsWith (s p : String) : Bool :=
  p.data.isPrefixOf s.data

/-- JS `arr[i]` on an array of strings, defaulting to `""`; every use below is
at an index that is present in the array (the split cookie always has a second
segment because the matched cookie contains `=`). -/
def jsIndex (l : List String) (i : Nat) : String :=
  (l.get? i).getD ""

namespace Testmode

/-- `TestmodeAuthImplementation.TEST_SESSION_ID` (src/testmode.tsx). -/
def TEST_SESSION_ID : String := "testmode-session"

/-- Session-id resolution inlined in `sessionMiddlewareImpl`
(src/testmode.tsx): default to `TEST_SESSION_ID`; if the `Cookie` header is
truthy, split it on `;`, trim each pair, find the first pair starting with
`testmode-session-id=`, and take segment 1 of its split on `=`. -/
def resolveSessionIdMiddleware (cookieHeader : Option String) : String :=
  match cookieHeader with
  | none => TEST_SESSION_ID
  | some h =>
    if h = "" then TEST_SESSION_ID
    else
      let cookies := (jsSplit h ';').map jsTrim
      match cookies.find? (fun cookie => jsStartsWith cookie "testmode-session-id=") with
      | some sessionCookie => jsIndex (jsSplit sessionCookie '=') 1
      | none => TEST_SESSION_ID

/-- The same resolution block, inlined a second time in `signinImpl`
(src/testmode.tsx). -/
def resolveSessionIdSignin (cookieHeader : Option String) : String :=
  match cookieHeader with
  | none => TEST_SESSION_ID
  | some h =>
    if h = "" then TEST_SESSION_ID
    else
      let cookies := (jsSplit h ';').map jsTrim
      match cookies.find? (fun cookie => jsStartsWith cookie "testmode-session-id=") with
      | some sessionCookie => jsIndex (jsSplit sessionCookie '=') 1
      | none => TEST_SESSION_ID

/-- The same resolution block, inlined a third time in `signoutImpl`
(src/testmode.tsx). -/
def resolveSessionIdSignout (cookieHeader : Option String) : String :=
  match cookieHeader with
  | none => TEST_SESSION_ID
  | some h =>
    if h = "" then TEST_SESSION_ID
    else
      let cookies := (jsSplit h ';').map jsTrim
      match cookies.find? (fun cookie => jsStartsWith cookie "testmode-session-id=") with
      | some sessionCookie => jsIndex (jsSplit sessionCookie '=') 1
      | none => TEST_SESSION_ID

end Testmode

/-- Response bodies the handlers produce.  JSON/HTML payloads are kept
structured (the JSON object shapes are those literally written in the source);
the two sign-in pages are opaque since their markup is outside the claims. -/
inductive ResponseBody where
  | errorJson (error : String)
  | successJson (session : ValidSessionData)
  | alreadySignedIn (session : ValidSessionData)
  | testSigninForm
  | signinPage
  | text (s : String)
  | redirect (location : String)
  deriving Repr, DecidableEq

/-- A `Set-Cookie` effect: either a raw header value written with
`c.header('Set-Cookie', …)` (simulated mode) or a structured cookie written
with hono's `setCookie` helper (live mode). -/
inductive CookieEffect where
  | rawHeader (value : String)
  | structured (name value : String) (httpOnly : Bool) (sameSite : String)
      (path : String) (maxAge : Nat) (domain : Option String)
  deriving Repr, DecidableEq

/-- An HTTP response: status, body, and the cookie-setting effects attached to
it (`c.json(x)`, `c.html(x)`, `c.text(x)` respond 200; `c.redirect(x)` 302). -/
structure Response where
  status : Nat
  body : ResponseBody
  cookies : List CookieEffect
  deriving Repr, DecidableEq

/-- Result of a handler together with the store calls it issued. -/
structure Outcome where
  response : Response
  getCalls : List String
  putCalls : List ValidSessionData
  deleteCalls : List String
  deriving Repr, DecidableEq

/-- Result of the session-resolution middleware: the per-request session value
it sets via `c.set('session', …)`, plus the store reads it issued. -/
structure MiddlewareOutcome where
  session : SessionData
  getCalls : List String
  deriving Repr, DecidableEq

/-- Response body of an `.ok` handler result. -/
def outBody : Except Unit Outcome → Option ResponseBody
  | .ok o => some o.response.body
  | .error _ => none

/-- Status of an `.ok` handler result. -/
def outStatus : Except Unit Outcome → Option Nat
  | .ok o => some o.response.status
  | .error _ => none

/-- Cookie effects of an `.ok` handler result. -/
def outCookies : Except Unit Outcome → List CookieEffect
  | .ok o => o.response.cookies
  | .error _ => []

/-- `put` trace of an `.ok` handler result. -/
def outPutCalls : Except Unit Outcome → List ValidSessionData
  | .ok o => o.putCalls
  | .error _ => []

/-- `delete` trace of an `.ok` handler result. -/
def outDeleteCalls : Except Unit Outcome → List String
  | .ok o => o.deleteCalls
  | .error _ => []

namespace Testmode

/-- `TestmodeAuthImplementation.sessionMiddlewareImpl` (src/testmode.tsx):
resolve the session id from the `Cookie` header, `get` it from the store, and
set the session value — a found record as-is, `{signedIn:false, error:'No test
session'}` when absent, `{signedIn:false, error:'Session store error'}` when
the store throws. -/
def sessionMiddlewareImpl (store : SessionStore) (cookieHeader : Option String) :
    Except Unit MiddlewareOutcome :=
  match store.get (resolveSessionIdMiddleware cookieHeader) with
  | .ok (some session) => .ok ⟨.valid session, [resolveSessionIdMiddleware cookieHeader]⟩
  | .ok none => .ok ⟨.invalid (some "No test session"), [resolveSessionIdMiddleware cookieHeader]⟩
  | .throws => .ok ⟨.invalid (some "Session store error"), [resolveSessionIdMiddleware cookieHeader]⟩

/-- `TestmodeAuthImplementation.signinImpl` (src/testmode.tsx): if a session
exists under the resolved id, answer `{message:'Already signed in', session}`;
otherwise (also when the store `get` throws — the catch comment says
"Continue to render form if session store fails") render the test sign-in
form. -/
def signinImpl (store : SessionStore) (cookieHeader : Option String) :
    Except Unit Outcome :=
  match store.get (resolveSessionIdSignin cookieHeader) with
  | .ok (some currentSession) =>
    .ok ⟨⟨200, .alreadySignedIn currentSession, []⟩, [resolveSessionIdSignin cookieHeader], [], []⟩
  | .ok none => .ok ⟨⟨200, .testSigninForm, []⟩, [resolveSessionIdSignin cookieHeader], [], []⟩
  | .throws => .ok ⟨⟨200, .testSigninForm, []⟩, [resolveSessionIdSignin cookieHeader], [], []⟩

/-- The JSON body of a `POST /test/signin` request as `testSigninImpl` reads
it: `{email, name, sessionID?}`, each field possibly absent. -/
structure TestSigninBody where
  email : Option String
  name : Option String
  sessionID : Option String
  deriving Repr, DecidableEq

/-- The `const session = {…}` record `testSigninImpl` builds: `sessionId` is
`data.sessionID || TEST_SESSION_ID`, name/email are copied from the body, and
the credential is the fixed string `'test-credential'`. -/
def testSigninSession (data : TestSigninBody) : ValidSessionData :=
  ⟨jsOrString data.sessionID TEST_SESSION_ID, data.name.getD "", data.email.getD "",
    "test-credential"⟩

/-- `TestmodeAuthImplementation.testSigninImpl` (src/testmode.tsx); the
argument is `none` when `c.req.json()` throws (unparseable body).  Validation:
`!data.email || !data.name` → 400.  Session id: `data.sessionID ||
TEST_SESSION_ID`.  On `put` success, a raw scoping `Set-Cookie` header is
attached only when `data.sessionID` is truthy; on `put` failure, 500. -/
def testSigninImpl (store : SessionStore) (body : Option TestSigninBody) :
    Except Unit Outcome :=
  match body with
  | none => .ok ⟨⟨400, .errorJson "Invalid JSON body", []⟩, [], [], []⟩
  | some data =>
    if ¬ jsTruthy data.email ∨ ¬ jsTruthy data.name then
      .ok ⟨⟨400, .errorJson "email and name are required", []⟩, [], [], []⟩
    else
      match store.put (testSigninSession data) with
      | .ok =>
        .ok ⟨⟨200, .successJson (testSigninSession data),
          if jsTruthy data.sessionID then
            [CookieEffect.rawHeader
              ("testmode-session-id=" ++ jsOrString data.sessionID TEST_SESSION_ID
                ++ "; Path=/; SameSite=Lax")]
          else []⟩, [], [testSigninSession data], []⟩
      | .throws =>
        .ok ⟨⟨500, .errorJson "Failed to store session", []⟩, [], [testSigninSession data], []⟩

/-- `TestmodeAuthImplementation.callbackImpl` (src/testmode.tsx): always
redirect to `/`. -/
def callbackImpl : Except Unit Outcome :=
  .ok ⟨⟨302, .redirect "/", []⟩, [], [], []⟩

/-- The raw header written to clear the scoping cookie in `signoutImpl`. -/
def clearScopingCookie : CookieEffect :=
  .rawHeader "testmode-session-id=; Path=/; SameSite=Lax; Max-Age=0"

/-- `TestmodeAuthImplementation.signoutImpl` (src/testmode.tsx): inside one
`try` block, call `delete` when the store has it, then — still inside the
`try` — clear the scoping cookie when the resolved id differs from
`TEST_SESSION_ID`; the `catch` ignores the error (so a throwing `delete` also
skips the cookie-clearing line); always redirect to `/`. -/
def signoutImpl (store : SessionStore) (cookieHeader : Option String) :
    Except Unit Outcome :=
  match store.delete with
  | some del =>
    match del (resolveSessionIdSignout cookieHeader) with
    | .ok =>
      .ok ⟨⟨302, .redirect "/",
        if resolveSessionIdSignout cookieHeader ≠ TEST_SESSION_ID
          then [clearScopingCookie] else []⟩, [], [],
        [resolveSessionIdSignout cookieHeader]⟩
    | .throws =>
      .ok ⟨⟨302, .redirect "/", []⟩, [], [], [resolveSessionIdSignout cookieHeader]⟩
  | none =>
    .ok ⟨⟨302, .redirect "/",
      if resolveSessionIdSignout cookieHeader ≠ TEST_SESSION_ID
        then [clearScopingCookie] else []⟩, [], [], []⟩

end Testmode

namespace Livemode

/-- The live-mode configuration fields `callbackImpl`/`signinImpl`/
`signoutImpl`/`sessionMiddlewareImpl` read from the resolved options
(src/types.ts): each optional, with JS-falsy defaulting at use sites. -/
structure LiveOptions where
  cookieName : Option String
  cookieDomain : Option String
  sessionDurationSeconds : Option Nat
  deriving Repr, DecidableEq

/-- The fields of the verifier's `TokenInfo` that the callback consumes. -/
structure TokenInfoData where
  name : String
  email : String
  deriving Repr, DecidableEq

/-- Behaviour of the `fetch` to the token-info endpoint for this request:
a response (with its `ok` flag and, when parseable, its decoded body) or a
thrown network/parse error. -/
inductive VerifyFetchOutcome where
  | response (ok : Bool) (body : TokenInfoData)
  | networkError
  deriving Repr, DecidableEq

/-- `verifyCredential` (src/livemode.ts): `null` on a non-2xx response or a
thrown fetch/JSON error, the decoded `TokenInfo` otherwise. -/
def verifyCredential (outcome : VerifyFetchOutcome) : Option TokenInfoData :=
  match outcome with
  | .response ok body => if ok then some body else none
  | .networkError => none

/-- The `COOKIE_NAME` each live-mode operation computes:
`options.cookieName || 'auth_session_cookie'`. -/
def cookieNameOf (options : LiveOptions) : String :=
  jsOrString options.cookieName "auth_session_cookie"

/-- `LivemodeAuthImplementation.sessionMiddlewareImpl` (src/livemode.ts).
`getCookieValue` is hono's `getCookie(c, ·)` for this request (`none` when the
cookie is absent; an empty value yields `some ""`, which the `if (sessionId)`
guard treats like absence).  Store `get` failures are caught. -/
def sessionMiddlewareImpl (options : LiveOptions) (store : SessionStore)
    (getCookieValue : String → Option String) : Except Unit MiddlewareOutcome :=
  if jsTruthy (getCookieValue (cookieNameOf options)) then
    match store.get ((getCookieValue (cookieNameOf options)).getD "") with
    | .ok (some session) =>
      .ok ⟨.valid session, [(getCookieValue (cookieNameOf options)).getD ""]⟩
    | .ok none =>
      .ok ⟨.invalid (some "Session not found"),
        [(getCookieValue (cookieNameOf options)).getD ""]⟩
    | .throws =>
      .ok ⟨.invalid (some "Session store error"),
        [(getCookieValue (cookieNameOf options)).getD ""]⟩
  else
    .ok ⟨.invalid (some "No session cookie"), []⟩

/-- `LivemodeAuthImplementation.signinImpl` (src/livemode.ts): when the
session cookie is truthy the handler awaits `sessionStore.get` with no
`try`/`catch`, so a rejecting `get` escapes to the host (`.error ()`); a found
record (always `signedIn: true` by its type) redirects to `/`; otherwise the
sign-in page is rendered. -/
def signinImpl (options : LiveOptions) (store : SessionStore)
    (getCookieValue : String → Option String) : Except Unit Outcome :=
  if jsTruthy (getCookieValue (cookieNameOf options)) then
    match store.get ((getCookieValue (cookieNameOf options)).getD "") with
    | .throws => .error ()
    | .ok (some _) =>
      .ok ⟨⟨302, .redirect "/", []⟩,
        [(getCookieValue (cookieNameOf options)).getD ""], [], []⟩
    | .ok none =>
      .ok ⟨⟨200, .signinPage, []⟩,
        [(getCookieValue (cookieNameOf options)).getD ""], [], []⟩
  else
    .ok ⟨⟨200, .signinPage, []⟩, [], [], []⟩

/-- The `const session = {…}` record the live callback builds on successful
verification: a fresh random id, name/email from the token info, and the
posted credential. -/
def callbackSession (credential freshId : String) (tokenInfo : TokenInfoData) :
    ValidSessionData :=
  ⟨freshId, tokenInfo.name, tokenInfo.email, credential⟩

/-- `LivemodeAuthImplementation.callbackImpl` (src/livemode.ts): verify the
posted credential; on success build a record under a fresh random id
(`crypto.randomUUID()`, passed in as `freshId`), `put` it — un-caught, so a
rejecting `put` escapes to the host — set the http-only session cookie and
redirect to `/`; on verification failure answer `c.text('Invalid Google
Sign-In')` (status 200). -/
def callbackImpl (options : LiveOptions) (store : SessionStore)
    (credential : String) (fetchOutcome : VerifyFetchOutcome) (freshId : String) :
    Except Unit Outcome :=
  match verifyCredential fetchOutcome with
  | some tokenInfo =>
    match store.put (callbackSession credential freshId tokenInfo) with
    | .throws => .error ()
    | .ok =>
      .ok ⟨⟨302, .redirect "/",
        [CookieEffect.structured (cookieNameOf options) freshId true "Lax" "/"
          (jsOrNat options.sessionDurationSeconds (3600 * 24 * 365))
          (jsNonEmpty options.cookieDomain)]⟩, [],
        [callbackSession credential freshId tokenInfo], []⟩
  | none => .ok ⟨⟨200, .text "Invalid Google Sign-In", []⟩, [], [], []⟩

/-- `LivemodeAuthImplementation.signoutImpl` (src/livemode.ts): overwrite the
session cookie with an empty value and `Max-Age=0` and redirect to `/`; the
handler never references the session store. -/
def signoutImpl (options : LiveOptions) : Except Unit Outcome :=
  .ok ⟨⟨302, .redirect "/",
    [CookieEffect.structured (cookieNameOf options) "" true "Lax" "/" 0
      (jsNonEmpty options.cookieDomain)]⟩, [], [], []⟩

end Livemode

/-! ### Concrete store behaviours used to instantiate theorems. -/

/-- A store that is empty and whose operations all succeed. -/
def emptyOkStore : SessionStore where
  get := fun _ => .ok none
  put := fun _ => .ok
  delete := some fun _ => .ok

/-- The record used by concrete instantiations. -/
def sampleSession : ValidSessionData :=
  ⟨"testmode-session", "John Doe", "john@example.com", "test-credential"⟩

/-- A store holding `sampleSession` under the fixed default test id and
nothing else; all operations succeed. -/
def defaultPopulatedStore : SessionStore where
  get := fun id => if id = "testmode-session" then .ok (some sampleSession) else .ok none
  put := fun _ => .ok
  delete := some fun _ => .ok

/-- A store whose every operation rejects. -/
def allThrowStore : SessionStore where
  get := fun _ => .throws
  put := fun _ => .throws
  delete := some fun _ => .throws

/-- A store whose reads and writes succeed but whose `delete` rejects. -/
def deleteThrowStore : SessionStore where
  get := fun _ => .ok none
  put := fun _ => .ok
  delete := some fun _ => .throws

/-! ### Helper lemmas about the character-level JS string operations. -/

theorem splitOnCharList_ne_nil (sep : Char) (l : List Char) :
    splitOnCharList sep l ≠ [] := by
  induction l with
  | nil => simp [splitOnCharList]
  | cons c cs ih =>
    simp only [splitOnCharList]
    rcases h : splitOnCharList sep cs with _ | ⟨g, gs⟩
    · exact absurd h ih
    · by_cases hc : c = sep <;> simp [hc]

theorem splitOnCharList_of_not_mem (sep : Char) (l : List Char)
    (h : sep ∉ l) : splitOnCharList sep l = [l] := by
  induction l with
  | nil => rfl
  | cons c cs ih =>
    simp only [List.mem_cons, not_or] at h
    simp only [splitOnCharList, ih h.2]
    simp [Ne.symm h.1]

theorem splitOnCharList_append_cons (sep : Char) (a b : List Char)
    (ha : sep ∉ a) :
    splitOnCharList sep (a ++ sep :: b) = a :: splitOnCharList sep b := by
  induction a with
  | nil =>
    simp only [List.nil_append, splitOnCharList]
    rcases h : splitOnCharList sep b with _ | ⟨g, gs⟩
    · exact absurd h (splitOnCharList_ne_nil sep b)
    · simp
  | cons c cs ih =>
    simp only [List.mem_cons, not_or] at ha
    simp only [List.cons_append, splitOnCharList, List.append_eq]
    rw [ih ha.2]
    simp [Ne.symm ha.1]

theorem splitOnCharList_head (sep : Char) (b : List Char) :
    ∃ gs, splitOnCharList sep b = b.takeWhile (fun c => c ≠ sep) :: gs := by
  induction b with
  | nil => exact ⟨[], rfl⟩
  | cons c cs ih =>
    obtain ⟨gs, hgs⟩ := ih
    by_cases hc : c = sep
    · subst hc
      refine ⟨splitOnCharList c cs, ?_⟩
      simp only [splitOnCharList]
      rw [hgs]
      simp [List.takeWhile]
    · refine ⟨gs, ?_⟩
      simp only [splitOnCharList]
      rw [hgs]
      simp [hc, List.takeWhile]

theorem dropWhile_eq_self_of_all (p : Char → Bool) (l : List Char)
    (h : ∀ c ∈ l, p c = false) : List.dropWhile p l = l := by
  cases l with
  | nil => rfl
  | cons c cs => simp [List.dropWhile, h c (by simp)]

theorem trimList_of_no_ws (l : List Char)
    (h : ∀ c ∈ l, c.isWhitespace = false) : trimList l = l := by
  unfold trimList
  rw [dropWhile_eq_self_of_all _ _ (fun c hc => h c hc),
    dropWhile_eq_self_of_all _ _ (fun c hc => h c (List.mem_reverse.mp hc)),
    List.reverse_reverse]

theorem isPrefixOf_append_self (a b : List Char) :
    a.isPrefixOf (a ++ b) = true := by
  induction a with
  | nil => simp [List.isPrefixOf]
  | cons c cs ih => simp [List.isPrefixOf, ih]

theorem find?_singleton_of_pos {α : Type} (p : α → Bool) (a : α)
    (h : p a = true) : List.find? p [a] = some a := by
  simp [List.find?, h]

/-- On a `Cookie` header that consists of the scoping cookie
`testmode-session-id=<v>` alone, with `<v>` free of `;` and whitespace (as any
single cookie value is), the inlined resolution of src/testmode.tsx yields the
prefix of `<v>` that precedes its first `=`. -/
theorem resolveMiddleware_append_scoping (v : String)
    (hv : ∀ c ∈ v.data, c.isWhitespace = false ∧ c ≠ ';') :
    Testmode.resolveSessionIdMiddleware (some ("testmode-session-id=" ++ v)) =
      String.mk (v.data.takeWhile (fun c => c ≠ '=')) := by
  have hdata : ("testmode-session-id=" ++ v).data
      = ("testmode-session-id=" : String).data ++ v.data := rfl
  have hne : ("testmode-session-id=" ++ v) ≠ "" := by
    intro heq
    have h0 : ("testmode-session-id=" ++ v).data = [] := by rw [heq]
    rw [hdata] at h0
    simp at h0
  have hnomem : (';' : Char) ∉ ("testmode-session-id=" : String).data ++ v.data := by
    intro hm
    rcases List.mem_append.mp hm with hm | hm
    · exact absurd hm (by decide)
    · exact (hv _ hm).2 rfl
  have hsplit : jsSplit ("testmode-session-id=" ++ v) ';'
      = [String.mk (("testmode-session-id=" : String).data ++ v.data)] := by
    unfold jsSplit
    rw [hdata, splitOnCharList_of_not_mem _ _ hnomem]
    rfl
  have hpre_ws : ∀ c ∈ ("testmode-session-id=" : String).data, c.isWhitespace = false := by
    decide
  have htrim : jsTrim (String.mk (("testmode-session-id=" : String).data ++ v.data))
      = String.mk (("testmode-session-id=" : String).data ++ v.data) := by
    unfold jsTrim
    rw [trimList_of_no_ws]
    intro c hc
    rcases List.mem_append.mp hc with hc | hc
    · exact hpre_ws _ hc
    · exact (hv _ hc).1
  have hsw : jsStartsWith (String.mk (("testmode-session-id=" : String).data ++ v.data))
      "testmode-session-id=" = true :=
    isPrefixOf_append_self _ _
  have hsplit2 : jsSplit (String.mk (("testmode-session-id=" : String).data ++ v.data)) '='
      = String.mk ("testmode-session-id" : String).data
        :: (splitOnCharList '=' v.data).map String.mk := by
    unfold jsSplit
    have hpre : ("testmode-session-id=" : String).data ++ v.data
        = ("testmode-session-id" : String).data ++ '=' :: v.data := by
      have : ("testmode-session-id=" : String).data
          = ("testmode-session-id" : String).data ++ ['='] := by decide
      rw [this, List.append_assoc]
      rfl
    rw [show (String.mk (("testmode-session-id=" : String).data ++ v.data)).data
        = ("testmode-session-id=" : String).data ++ v.data from rfl]
    rw [hpre, splitOnCharList_append_cons _ _ _ (by decide)]
    rfl
  obtain ⟨gs, hgs⟩ := splitOnCharList_head '=' v.data
  have hstep : (jsSplit ("testmode-session-id=" ++ v) ';').map jsTrim
      = [String.mk (("testmode-session-id=" : String).data ++ v.data)] := by
    rw [hsplit]
    show [jsTrim (String.mk (("testmode-session-id=" : String).data ++ v.data))]
      = [String.mk (("testmode-session-id=" : String).data ++ v.data)]
    rw [htrim]
  have hfind : List.find? (fun cookie => jsStartsWith cookie "testmode-session-id=")
      [String.mk (("testmode-session-id=" : String).data ++ v.data)]
      = some (String.mk (("testmode-session-id=" : String).data ++ v.data)) :=
    find?_singleton_of_pos _ _ hsw
  have hun : Testmode.resolveSessionIdMiddleware (some ("testmode-session-id=" ++ v))
      = (if ("testmode-session-id=" ++ v) = "" then Testmode.TEST_SESSION_ID
         else
           match ((jsSplit ("testmode-session-id=" ++ v) ';').map jsTrim).find?
               (fun cookie => jsStartsWith cookie "testmode-session-id=") with
           | some sessionCookie => jsIndex (jsSplit sessionCookie '=') 1
           | none => Testmode.TEST_SESSION_ID) := rfl
  rw [hun, if_neg hne, hstep, hfind]
  show jsIndex (jsSplit (String.mk (("testmode-session-id=" : String).data ++ v.data)) '=') 1
      = String.mk (v.data.takeWhile (fun c => c ≠ '='))
  rw [hsplit2, hgs]
  rfl

/-- Whether a handler result stayed inside the handler (`.ok`) or escaped as
an unhandled exception to the host framework (`.error`). -/
def returnsOk {α : Type} : Except Unit α → Bool
  | .ok _ => true
  | .error _ => false

/-! ### Claim theorems -/

/-- C1: in Simulated (testmode) mode, the session-resolution middleware, the
sign-in renderer and the sign-out handler all resolve the session id — the
store key they operate under — by the identical algorithm (the value segment
of the `testmode-session-id` cookie when that cookie appears in the `Cookie`
header, otherwise the fixed default id `testmode-session`): for every request,
i.e. every `Cookie` header, the three inlined resolution blocks of
src/testmode.tsx compute the same store key. -/
theorem testmode_store_key_resolution_identical (cookieHeader : Option String) :
    Testmode.resolveSessionIdSignin cookieHeader
        = Testmode.resolveSessionIdMiddleware cookieHeader ∧
      Testmode.resolveSessionIdSignout cookieHeader
        = Testmode.resolveSessionIdMiddleware cookieHeader :=
  ⟨rfl, rfl⟩

/-- C2 (counterexample): on the `Cookie` header `testmode-session-id=`, the
simulated middleware does NOT fall back to the default id: against a store
that holds a record under the default id `testmode-session`, it performs its
lookup under the empty string and sets `{signedIn:false, error:'No test
session'}` — the claimed fallback would have found the stored record. -/
theorem testmode_empty_scoping_cookie_counterexample :
    Testmode.sessionMiddlewareImpl defaultPopulatedStore (some "testmode-session-id=")
        = .ok ⟨.invalid (some "No test session"), [""]⟩ ∧
      ("" : String) ≠ Testmode.TEST_SESSION_ID := by
  constructor
  · rfl
  · decide

/-- C2 (amended): when the first trimmed `;`-separated pair of the `Cookie`
header matching the prefix `testmode-session-id=` is the bare pair
`testmode-session-id=` (empty cookie value), the simulated middleware resolves
the session id to the EMPTY STRING — not to the default id — and performs its
store lookup under `""`. -/
theorem testmode_empty_scoping_cookie_lookup (store : SessionStore) (h : String)
    (hfind : ((jsSplit h ';').map jsTrim).find?
        (fun cookie => jsStartsWith cookie "testmode-session-id=")
        = some "testmode-session-id=") :
    Testmode.sessionMiddlewareImpl store (some h)
      = .ok ⟨(match store.get "" with
          | .ok (some s) => .valid s
          | .ok none => .invalid (some "No test session")
          | .throws => .invalid (some "Session store error")), [""]⟩ := by
  have hres : Testmode.resolveSessionIdMiddleware (some h) = "" := by
    by_cases hh : h = ""
    · subst hh
      exact absurd hfind (by decide)
    · have hun : Testmode.resolveSessionIdMiddleware (some h)
          = (if h = "" then Testmode.TEST_SESSION_ID
             else
               match ((jsSplit h ';').map jsTrim).find?
                   (fun cookie => jsStartsWith cookie "testmode-session-id=") with
               | some sessionCookie => jsIndex (jsSplit sessionCookie '=') 1
               | none => Testmode.TEST_SESSION_ID) := rfl
      rw [hun, if_neg hh, hfind]
      rfl
  unfold Testmode.sessionMiddlewareImpl
  rw [hres]
  cases hg : store.get "" with
  | ok r => cases r <;> rfl
  | throws => rfl

/-- Witness for the amended C2 at the repo's own "malformed cookies" test
input: `Cookie: testmode-session-id=; some-other-cookie=value` makes the
middleware look up the empty string in the store. -/
theorem testmode_empty_scoping_cookie_lookup_witness :
    Testmode.sessionMiddlewareImpl emptyOkStore
        (some "testmode-session-id=; some-other-cookie=value")
      = .ok ⟨.invalid (some "No test session"), [""]⟩ := by
  have := testmode_empty_scoping_cookie_lookup emptyOkStore
    "testmode-session-id=; some-other-cookie=value" (by decide)
  simpa using this

/-- C10: on a `Cookie` header carrying `testmode-session-id=<v>` with a
non-empty value `<v>` (made of cookie-value characters: no `;`, no
whitespace), the resolved session id is the prefix of `<v>` before its first
`=`; hence the id round-trips to the same store key exactly when `<v>`
contains no `=` — an id containing `=` is silently truncated at lookup and no
longer matches the key it was stored under. -/
theorem testmode_scoping_cookie_truncation (v : String) (hne : v ≠ "")
    (hv : ∀ c ∈ v.data, c.isWhitespace = false ∧ c ≠ ';') :
    Testmode.resolveSessionIdMiddleware (some ("testmode-session-id=" ++ v))
        = String.mk (v.data.takeWhile (fun c => c ≠ '=')) ∧
      (String.mk (v.data.takeWhile (fun c => c ≠ '=')) = v ↔ ('=' : Char) ∉ v.data) := by
  refine ⟨resolveMiddleware_append_scoping v hv, ?_, ?_⟩
  · intro hmk hm
    have hself : v.data.takeWhile (fun c => c ≠ '=') = v.data :=
      congrArg String.data hmk
    have := List.takeWhile_eq_self_iff.mp hself _ hm
    simp at this
  · intro hm
    have hself : v.data.takeWhile (fun c => c ≠ '=') = v.data :=
      List.takeWhile_eq_self_iff.mpr (fun c hc => by
        simp only [decide_eq_true_eq]
        intro he
        exact hm (he ▸ hc))
    rw [hself]

/-- Witness for C10 at `v = "abc=def"`: the resolved id is `"abc"`, which does
not round-trip since `v` contains `=`. -/
theorem testmode_scoping_cookie_truncation_witness :
    ("abc=def" : String) ≠ "" ∧
      (Testmode.resolveSessionIdMiddleware (some ("testmode-session-id=" ++ "abc=def"))
          = String.mk (("abc=def" : String).data.takeWhile (fun c => c ≠ '=')) ∧
        (String.mk (("abc=def" : String).data.takeWhile (fun c => c ≠ '=')) = "abc=def"
          ↔ ('=' : Char) ∉ ("abc=def" : String).data)) :=
  ⟨by decide, testmode_scoping_cookie_truncation "abc=def" (by decide) (by decide)⟩

/-- C4 (counterexample): the Live sign-out handler never deletes the Session
Record — on default options it issues no store operation at all (its delete
trace is empty; the source never references the session store) and merely
clears the session cookie and redirects to `/`. -/
theorem live_signout_no_delete_counterexample :
    Livemode.signoutImpl ⟨none, none, none⟩
        = .ok ⟨⟨302, .redirect "/",
            [CookieEffect.structured "auth_session_cookie" "" true "Lax" "/" 0 none]⟩,
          [], [], []⟩ ∧
      outDeleteCalls (Livemode.signoutImpl ⟨none, none, none⟩) = [] :=
  ⟨rfl, rfl⟩

/-- C4 (amended): on sign-out, the Simulated strategy deletes the store record
under the resolved session id whenever the store has the `delete` capability,
best-effort — the redirect to `/` is produced no matter how the deletion
fares — while the Live strategy performs no store deletion at all: it only
overwrites the session cookie and redirects to `/`. -/
theorem signout_deletion_behavior (store : SessionStore) (ch : Option String)
    (options : Livemode.LiveOptions) :
    outBody (Testmode.signoutImpl store ch) = some (.redirect "/") ∧
      outStatus (Testmode.signoutImpl store ch) = some 302 ∧
      outDeleteCalls (Testmode.signoutImpl store ch)
        = (match store.delete with
           | some _ => [Testmode.resolveSessionIdSignout ch]
           | none => []) ∧
      Livemode.signoutImpl options
        = .ok ⟨⟨302, .redirect "/",
            [CookieEffect.structured (Livemode.cookieNameOf options) "" true "Lax" "/" 0
              (jsNonEmpty options.cookieDomain)]⟩, [], [], []⟩ := by
  rcases hd : store.delete with _ | del
  · exact ⟨by simp [Testmode.signoutImpl, hd, outBody],
      by simp [Testmode.signoutImpl, hd, outStatus],
      by simp [Testmode.signoutImpl, hd, outDeleteCalls], rfl⟩
  · rcases hdel : del (Testmode.resolveSessionIdSignout ch) with _ | _
    · exact ⟨by simp [Testmode.signoutImpl, hd, hdel, outBody],
        by simp [Testmode.signoutImpl, hd, hdel, outStatus],
        by simp [Testmode.signoutImpl, hd, hdel, outDeleteCalls], rfl⟩
    · exact ⟨by simp [Testmode.signoutImpl, hd, hdel, outBody],
        by simp [Testmode.signoutImpl, hd, hdel, outStatus],
        by simp [Testmode.signoutImpl, hd, hdel, outDeleteCalls], rfl⟩

/-- C8 (counterexample): in Simulated mode, with a non-default session id in
use (`Cookie: testmode-session-id=abc`) and a store whose `delete` throws, the
sign-out response carries NO cookie-clearing header — the single `try` block
of the source means a throwing delete also skips the cookie-clearing — even
though the claim requires the scoping cookie to be cleared whenever a
non-default id is in use.  The redirect to `/` still happens. -/
theorem testmode_signout_delete_throw_counterexample :
    Testmode.signoutImpl deleteThrowStore (some "testmode-session-id=abc")
        = .ok ⟨⟨302, .redirect "/", []⟩, [], [], ["abc"]⟩ ∧
      ("abc" : String) ≠ Testmode.TEST_SESSION_ID :=
  ⟨rfl, by decide⟩

/-- C8 (amended): simulated sign-out always redirects to `/` and a throwing
delete never changes the response status or body; the scoping cookie is
cleared iff a non-default session id was in use AND the delete step (when the
store supports it) did not throw. -/
theorem testmode_signout_behavior (store : SessionStore) (ch : Option String) :
    outBody (Testmode.signoutImpl store ch) = some (.redirect "/") ∧
      outStatus (Testmode.signoutImpl store ch) = some 302 ∧
      (outCookies (Testmode.signoutImpl store ch) = [Testmode.clearScopingCookie]
        ↔ Testmode.resolveSessionIdSignout ch ≠ Testmode.TEST_SESSION_ID ∧
            ∀ del, store.delete = some del →
              del (Testmode.resolveSessionIdSignout ch) = .ok) := by
  rcases hd : store.delete with _ | del
  · refine ⟨by simp [Testmode.signoutImpl, hd, outBody],
      by simp [Testmode.signoutImpl, hd, outStatus], ?_⟩
    by_cases hid : Testmode.resolveSessionIdSignout ch = Testmode.TEST_SESSION_ID
    · simp [Testmode.signoutImpl, hd, outCookies, hid, Testmode.clearScopingCookie]
    · simp [Testmode.signoutImpl, hd, outCookies, hid]
  · rcases hdel : del (Testmode.resolveSessionIdSignout ch) with _ | _
    · refine ⟨by simp [Testmode.signoutImpl, hd, hdel, outBody],
        by simp [Testmode.signoutImpl, hd, hdel, outStatus], ?_⟩
      have hstep : outCookies (Testmode.signoutImpl store ch)
          = (if Testmode.resolveSessionIdSignout ch ≠ Testmode.TEST_SESSION_ID
             then [Testmode.clearScopingCookie] else []) := by
        simp [Testmode.signoutImpl, hd, hdel, outCookies]
      have hrhs : ∀ d, some del = some d →
          d (Testmode.resolveSessionIdSignout ch) = .ok := by
        intro d h2
        cases h2
        exact hdel
      rw [hstep]
      by_cases hid : Testmode.resolveSessionIdSignout ch = Testmode.TEST_SESSION_ID
      · simp [hid]
      · rw [if_pos hid]
        exact iff_of_true rfl ⟨hid, hrhs⟩
    · refine ⟨by simp [Testmode.signoutImpl, hd, hdel, outBody],
        by simp [Testmode.signoutImpl, hd, hdel, outStatus], ?_⟩
      simp [Testmode.signoutImpl, hd, hdel, outCookies, Testmode.clearScopingCookie]

/-- C5: a Simulated `POST /test/signin` with non-empty `name` and `email`
stores and returns the record whose `sessionId` is the supplied `sessionID`
when non-empty and the default `testmode-session` otherwise; `put` is invoked
on exactly that record; on `put` success the response is 200
`{success:true, session}` with the raw scoping `Set-Cookie` header
`testmode-session-id=<id>; Path=/; SameSite=Lax` (no `HttpOnly`) present iff a
non-empty `sessionID` was supplied; on a throwing `put` the response is 500
`{error:'Failed to store session'}`. -/
theorem test_signin_success_behavior (store : SessionStore)
    (email name : String) (sid : Option String)
    (he : email ≠ "") (hn : name ≠ "") :
    Testmode.testSigninImpl store (some ⟨some email, some name, sid⟩)
      = .ok (match store.put ⟨jsOrString sid Testmode.TEST_SESSION_ID, name, email,
            "test-credential"⟩ with
        | .ok =>
          ⟨⟨200, .successJson ⟨jsOrString sid Testmode.TEST_SESSION_ID, name, email,
              "test-credential"⟩,
            if jsTruthy sid then
              [CookieEffect.rawHeader ("testmode-session-id="
                ++ jsOrString sid Testmode.TEST_SESSION_ID ++ "; Path=/; SameSite=Lax")]
            else []⟩, [],
            [⟨jsOrString sid Testmode.TEST_SESSION_ID, name, email, "test-credential"⟩], []⟩
        | .throws =>
          ⟨⟨500, .errorJson "Failed to store session", []⟩, [],
            [⟨jsOrString sid Testmode.TEST_SESSION_ID, name, email, "test-credential"⟩],
            []⟩) := by
  have h1 : jsTruthy (some email) = true := by simp [jsTruthy, he]
  have h2 : jsTruthy (some name) = true := by simp [jsTruthy, hn]
  have hsess : Testmode.testSigninSession ⟨some email, some name, sid⟩
      = ⟨jsOrString sid Testmode.TEST_SESSION_ID, name, email, "test-credential"⟩ := rfl
  cases hp : store.put ⟨jsOrString sid Testmode.TEST_SESSION_ID, name, email,
      "test-credential"⟩ with
  | ok => simp [Testmode.testSigninImpl, h1, h2, hsess, hp]
  | throws => simp [Testmode.testSigninImpl, h1, h2, hsess, hp]

/-- Witness for C5 at the spec's custom-id scenario: John Doe with
`sessionID = "custom-session-123"` against a store whose `put` succeeds. -/
theorem test_signin_success_behavior_witness :
    Testmode.testSigninImpl emptyOkStore
        (some ⟨some "john@example.com", some "John Doe", some "custom-session-123"⟩)
      = .ok ⟨⟨200, .successJson ⟨"custom-session-123", "John Doe", "john@example.com",
            "test-credential"⟩,
          [CookieEffect.rawHeader
            "testmode-session-id=custom-session-123; Path=/; SameSite=Lax"]⟩, [],
          [⟨"custom-session-123", "John Doe", "john@example.com", "test-credential"⟩],
          []⟩ := by
  have := test_signin_success_behavior emptyOkStore "john@example.com" "John Doe"
    (some "custom-session-123") (by decide) (by decide)
  simpa using this

/-- C9: a Simulated `POST /test/signin` whose body does not parse answers 400
`{error:'Invalid JSON body'}`, and one whose parsed body has an absent or
empty `email` or `name` answers 400 `{error:'email and name are required'}`;
in both cases the outcome carries no `put` call and no `Set-Cookie` effect —
no state mutation occurs. -/
theorem test_signin_validation_errors (store : SessionStore)
    (data : Testmode.TestSigninBody)
    (hbad : jsTruthy data.email = false ∨ jsTruthy data.name = false) :
    Testmode.testSigninImpl store none
        = .ok ⟨⟨400, .errorJson "Invalid JSON body", []⟩, [], [], []⟩ ∧
      Testmode.testSigninImpl store (some data)
        = .ok ⟨⟨400, .errorJson "email and name are required", []⟩, [], [], []⟩ := by
  constructor
  · rfl
  · have hcond : ¬ jsTruthy data.email = true ∨ ¬ jsTruthy data.name = true := by
      rcases hbad with hb | hb
      · exact Or.inl (by simp [hb])
      · exact Or.inr (by simp [hb])
    simp only [Testmode.testSigninImpl]
    rw [if_pos hcond]

/-- Witness for C9 at the spec's missing-field scenario: a body with
`name = "John Doe"` and no email. -/
theorem test_signin_validation_errors_witness :
    Testmode.testSigninImpl emptyOkStore none
        = .ok ⟨⟨400, .errorJson "Invalid JSON body", []⟩, [], [], []⟩ ∧
      Testmode.testSigninImpl emptyOkStore (some ⟨none, some "John Doe", none⟩)
        = .ok ⟨⟨400, .errorJson "email and name are required", []⟩, [], [], []⟩ :=
  test_signin_validation_errors emptyOkStore ⟨none, some "John Doe", none⟩
    (Or.inl (by decide))

/-- C6: in Live mode, a callback whose credential fails verification — the
token-info fetch throws, or it answers with a non-2xx status — yields the
response body exactly `Invalid Google Sign-In` as plain text with status 200,
with an empty `put` trace: `sessionStore.put` is never invoked and no cookie
is set. -/
theorem live_callback_verification_failure (options : Livemode.LiveOptions)
    (store : SessionStore) (credential freshId : String) :
    Livemode.callbackImpl options store credential .networkError freshId
        = .ok ⟨⟨200, .text "Invalid Google Sign-In", []⟩, [], [], []⟩ ∧
      ∀ body : Livemode.TokenInfoData,
        Livemode.callbackImpl options store credential (.response false body) freshId
          = .ok ⟨⟨200, .text "Invalid Google Sign-In", []⟩, [], [], []⟩ :=
  ⟨rfl, fun _ => rfl⟩

/-- C7: the Live session middleware sets the per-request session value by
exactly the claimed case analysis on the configured cookie — absent (which,
per the spec's own convention, includes an empty value: `if (sessionId)`)
gives Invalid `No session cookie`; present with no stored record gives Invalid
`Session not found`; present with a throwing store gives Invalid `Session
store error`; otherwise the retrieved record itself — and, the embedding being
a pure function of the request and the store behaviour, repeating the call on
the same input yields the same session value. -/
theorem live_middleware_resolution (options : Livemode.LiveOptions)
    (store : SessionStore) (getCk : String → Option String) :
    Livemode.sessionMiddlewareImpl options store getCk
        = .ok (if jsTruthy (getCk (Livemode.cookieNameOf options)) then
            match store.get ((getCk (Livemode.cookieNameOf options)).getD "") with
            | .ok (some s) =>
              ⟨.valid s, [(getCk (Livemode.cookieNameOf options)).getD ""]⟩
            | .ok none =>
              ⟨.invalid (some "Session not found"),
                [(getCk (Livemode.cookieNameOf options)).getD ""]⟩
            | .throws =>
              ⟨.invalid (some "Session store error"),
                [(getCk (Livemode.cookieNameOf options)).getD ""]⟩
          else ⟨.invalid (some "No session cookie"), []⟩) ∧
      Livemode.sessionMiddlewareImpl options store getCk
        = Livemode.sessionMiddlewareImpl options store getCk := by
  refine ⟨?_, rfl⟩
  by_cases hc : jsTruthy (getCk (Livemode.cookieNameOf options)) = true
  · cases hg : store.get ((getCk (Livemode.cookieNameOf options)).getD "") with
    | ok r =>
      cases r with
      | some s => simp [Livemode.sessionMiddlewareImpl, hc, hg]
      | none => simp [Livemode.sessionMiddlewareImpl, hc, hg]
    | throws => simp [Livemode.sessionMiddlewareImpl, hc, hg]
  · simp [Livemode.sessionMiddlewareImpl, hc]

/-- C3 (counterexample): with the session cookie present and a store whose
`get` rejects, the Live render-signin handler has no `try`/`catch` around its
store read, so the failure escapes as an unhandled exception to the host
framework — refuting the claim that every Strategy operation converts store
failures into a response or a session-state value. -/
theorem live_signin_store_throw_counterexample :
    Livemode.signinImpl ⟨none, none, none⟩ allThrowStore
        (fun n => if n = "auth_session_cookie" then some "sid-1" else none)
      = .error () := rfl

/-- C3 (amended): no Strategy operation lets a store or verifier failure
escape to the host framework EXCEPT the Live render-signin handler, which
propagates a rejecting `sessionStore.get` whenever the session cookie is
truthy, and the Live callback handler, which propagates a rejecting
`sessionStore.put` whenever verification succeeded; both exceptions are exact
(the iffs characterise precisely when an exception escapes). -/
theorem exception_propagation_characterization (store : SessionStore)
    (ch : Option String) (body : Option Testmode.TestSigninBody)
    (options : Livemode.LiveOptions) (getCk : String → Option String)
    (credential freshId : String) (fo : Livemode.VerifyFetchOutcome) :
    returnsOk (Testmode.sessionMiddlewareImpl store ch) = true ∧
      returnsOk (Testmode.signinImpl store ch) = true ∧
      returnsOk (Testmode.testSigninImpl store body) = true ∧
      returnsOk Testmode.callbackImpl = true ∧
      returnsOk (Testmode.signoutImpl store ch) = true ∧
      returnsOk (Livemode.sessionMiddlewareImpl options store getCk) = true ∧
      returnsOk (Livemode.signoutImpl options) = true ∧
      (returnsOk (Livemode.signinImpl options store getCk) = false ↔
        jsTruthy (getCk (Livemode.cookieNameOf options)) = true ∧
          store.get ((getCk (Livemode.cookieNameOf options)).getD "") = .throws) ∧
      (returnsOk (Livemode.callbackImpl options store credential fo freshId) = false ↔
        ∃ tokenInfo, Livemode.verifyCredential fo = some tokenInfo ∧
          store.put (Livemode.callbackSession credential freshId tokenInfo)
            = .throws) := by
  refine ⟨?_, ?_, ?_, rfl, ?_, ?_, rfl, ?_, ?_⟩
  · cases hg : store.get (Testmode.resolveSessionIdMiddleware ch) with
    | ok r => cases r <;> simp [Testmode.sessionMiddlewareImpl, hg, returnsOk]
    | throws => simp [Testmode.sessionMiddlewareImpl, hg, returnsOk]
  · cases hg : store.get (Testmode.resolveSessionIdSignin ch) with
    | ok r => cases r <;> simp [Testmode.signinImpl, hg, returnsOk]
    | throws => simp [Testmode.signinImpl, hg, returnsOk]
  · cases body with
    | none => rfl
    | some data =>
      by_cases hcond : jsTruthy data.email = false ∨ jsTruthy data.name = false
      · simp [Testmode.testSigninImpl, hcond, returnsOk]
      · cases hp : store.put (Testmode.testSigninSession data) <;>
          simp [Testmode.testSigninImpl, hcond, hp, returnsOk]
  · rcases hd : store.delete with _ | del
    · simp [Testmode.signoutImpl, hd, returnsOk]
    · rcases hdel : del (Testmode.resolveSessionIdSignout ch) with _ | _ <;>
        simp [Testmode.signoutImpl, hd, hdel, returnsOk]
  · by_cases hc : jsTruthy (getCk (Livemode.cookieNameOf options)) = true
    · cases hg : store.get ((getCk (Livemode.cookieNameOf options)).getD "") with
      | ok r => cases r <;> simp [Livemode.sessionMiddlewareImpl, hc, hg, returnsOk]
      | throws => simp [Livemode.sessionMiddlewareImpl, hc, hg, returnsOk]
    · simp [Livemode.sessionMiddlewareImpl, hc, returnsOk]
  · by_cases hc : jsTruthy (getCk (Livemode.cookieNameOf options)) = true
    · cases hg : store.get ((getCk (Livemode.cookieNameOf options)).getD "") with
      | ok r => cases r <;> simp [Livemode.signinImpl, hc, hg, returnsOk]
      | throws => simp [Livemode.signinImpl, hc, hg, returnsOk]
    · simp [Livemode.signinImpl, hc, returnsOk]
  · cases hv : Livemode.verifyCredential fo with
    | none => simp [Livemode.callbackImpl, hv, returnsOk]
    | some tokenInfo =>
      cases hp : store.put (Livemode.callbackSession credential freshId tokenInfo) with
      | ok => simp [Livemode.callbackImpl, hv, hp, returnsOk]
      | throws => simp [Livemode.callbackImpl, hv, hp, returnsOk]

end HonoSimpleGoogleAuth
